import Mathlib

/-!
Verification of the UGC Studio AI generation pipeline.

This file shallowly embeds the request-construction / response-extraction /
error-classification pipeline of `src/services/geminiService.ts`, the caller
guard `handleGenerate` of `src/App.tsx`, and the image-preparation logic
(`resizeImage` / `processFile`) of the `ImageUploader` component, and proves
the specified properties about them.

Modelling conventions:
- A caught error is a `JsError` carrying the two observable fields the
  code reads: its `message` property (the retry guard) and the result of
  `JSON.stringify` on the error value (the classification step). An
  `Error` built by the in-repo throws stringifies to the empty-object
  literal, because `message` and `stack` are non-enumerable; the shape
  of upstream service errors is opaque, so the oracle chooses both
  fields. Substring search mirrors `String.prototype.includes`.
- The external generation service is an oracle `svc : Nat → ApiOutcome`
  giving the outcome of the attempt with a given attempt counter.
- `generateCore` returns, besides the result, the list of requests that
  were actually issued to the service, so that retry counts and
  "no request was sent" facts are stated as facts about that list.
- Pixel dimensions in the resize step are modelled as exact rationals
  (the source uses JS floating point; "within rounding" claims become
  exact identities in ℚ).
-/

namespace UGCStudio

/-- Substring search on lists of characters: `true` iff `pat` occurs
contiguously inside the second list. -/
def substrAux (pat : List Char) : List Char → Bool
  | [] => pat.isEmpty
  | c :: t => pat.isPrefixOf (c :: t) || substrAux pat t

/-- `containsStr s pat` models JavaScript `s.includes(pat)`. -/
def containsStr (s pat : String) : Bool :=
  substrAux pat.data s.data

/-- `startsWithStr s pat` models JavaScript `s.startsWith(pat)`. -/
def startsWithStr (s pat : String) : Bool :=
  pat.data.isPrefixOf s.data

/-- User-facing message for quota / rate-limit failures. -/
def quotaMessage : String :=
  "API Quota Exceeded. Please check your plan or wait a few minutes before trying again."

/-- User-facing message for API-key / permission failures. -/
def authMessage : String :=
  "There is a problem with the API key. Please ensure it is valid and has the correct permissions."

/-- User-facing message for safety-filter rejections. -/
def safetyMessage : String :=
  "The request was blocked by safety filters. Please try a different scene or image."

/-- User-facing message for a missing environment credential. -/
def configMessage : String :=
  "API key is missing from the environment configuration."

/-- Generic fallback message. -/
def genericMessage : String :=
  "Something went wrong with the AI generation. Please try again later."

/-- Embedding of `handleApiError` from `src/services/geminiService.ts`:
substring checks applied in source order (quota, auth, safety,
missing-config, generic). -/
def handleApiError (errorString : String) : String :=
  if containsStr errorString "RESOURCE_EXHAUSTED" || containsStr errorString "429"
      || containsStr errorString "quota" then
    quotaMessage
  else if containsStr errorString "API_KEY_INVALID" || containsStr errorString "401"
      || containsStr errorString "403" then
    authMessage
  else if containsStr errorString "SAFETY" || containsStr errorString "blocked" then
    safetyMessage
  else if containsStr errorString "API_KEY is not available" then
    configMessage
  else
    genericMessage

/-- An inline binary payload with its media-type tag. -/
structure InlineData where
  data : String
  mimeType : String
  deriving DecidableEq, Repr

/-- One content part of a service response: optional text, optional
inline image data. -/
structure Part where
  text : Option String
  inlineData : Option InlineData
  deriving DecidableEq, Repr

/-- A service response, reduced to the fields the code reads:
`response.candidates?.[0]?.content?.parts` collapses through optional
chaining to an optional list of parts. -/
structure GenResponse where
  candidatesParts : Option (List Part)
  deriving DecidableEq, Repr

/-- A thrown JavaScript error as the `catch` clause observes it: the
`message` property, which the retry guard reads, and the result of
`JSON.stringify` on the error value, which the classification step
derives through its head conversion (the ternary on `typeof error`;
nothing thrown inside `generateUGCImage` is a plain string, so the
stringified branch is always taken there). -/
structure JsError where
  message : String
  jsonStringified : String
  deriving DecidableEq, Repr

/-- An `Error` object built by the in-repo `throw new Error(m)` sites:
its `message` and `stack` own properties are non-enumerable, so
`JSON.stringify` yields the empty-object literal. -/
def mkJsError (m : String) : JsError :=
  ⟨m, "\x7b\x7d"⟩

/-- The conversion at the head of `handleApiError` applied to a caught
error object: the string the substring checks then inspect. -/
def errorText (e : JsError) : String :=
  e.jsonStringified

/-- Outcome of one call to the external service: a structured response,
or a thrown transport error. The shape of upstream service errors is
opaque to the repository, so both observable fields of the thrown value
are chosen by the oracle. -/
inductive ApiOutcome where
  | ok (r : GenResponse)
  | err (e : JsError)
  deriving DecidableEq, Repr

/-- Truthiness of the SDK accessor `response.text`, which concatenates the
text of the parts of the first candidate: it is truthy iff some part carries
non-empty text. -/
def responseHasText (parts : List Part) : Bool :=
  parts.any (fun p => p.text.getD "" ≠ "")

/-- The response-extraction step inside the `try` block of
`generateUGCImage`: fail on an absent parts collection, return the first
inline payload, otherwise classify by the presence of text. Error strings
are exactly the messages thrown by the source. -/
def extractImage (partsOpt : Option (List Part)) : Except String String :=
  match partsOpt with
  | none => Except.error "No output content generated."
  | some parts =>
    match parts.findSome? (fun p => p.inlineData) with
    | some d => Except.ok d.data
    | none =>
      if responseHasText parts then Except.error "SAFETY_BLOCK"
      else Except.error "No image found in response."

/-- One request part: the prompt text or an inline image. -/
inductive ReqPart where
  | text (t : String)
  | inline (d : InlineData)
  deriving DecidableEq, Repr

/-- The multi-part request sent to the service, with its image-output
aspect configuration. -/
structure GenRequest where
  parts : List ReqPart
  aspect : String
  deriving DecidableEq, Repr

/-- The prompt string of `generateUGCImage`, with the scene description
interpolated. -/
def promptFor (sceneDescription : String) : String :=
  "Generate a realistic User Generated Content (UGC) photo for Instagram.\n  Atmosphere: "
    ++ sceneDescription ++
    ".\n  \n  The image must show the person from the provided portrait and the product from the product photo.\n  The person should be using or holding the product naturally in the environment.\n  Lighting: Soft, natural, lifestyle aesthetic.\n  Format: High-quality 1:1 square photo."

/-- JavaScript or-default on a media-type string: the empty string is
falsy and is replaced by the `image/jpeg` default. -/
def mimeOrDefault (m : String) : String :=
  if m = "" then "image/jpeg" else m

/-- The request payload built by `generateUGCImage`: prompt text first,
then the person image, then the product image, with defaulted media
types and square aspect configuration. -/
def buildRequest (person pm product prodm scene : String) : GenRequest :=
  { parts := [ ReqPart.text (promptFor scene),
               ReqPart.inline ⟨person, mimeOrDefault pm⟩,
               ReqPart.inline ⟨product, mimeOrDefault prodm⟩ ],
    aspect := "1:1" }

/-- One attempt as seen by the `catch` clause: a transport error is the
thrown upstream error object; a structured response goes through
extraction, whose internal `throw new Error(...)` failures land in the
same `catch` as standard `Error` objects. -/
def tryAttempt (o : ApiOutcome) : Except JsError String :=
  match o with
  | ApiOutcome.ok r =>
    match extractImage r.candidatesParts with
    | Except.ok d => Except.ok d
    | Except.error m => Except.error (mkJsError m)
  | ApiOutcome.err e => Except.error e

/-- The retry guard of `generateUGCImage`: the `message` property of the
caught error must contain the substring `500` or `429`. -/
def retryCondition (msg : String) : Bool :=
  containsStr msg "500" || containsStr msg "429"

/-- Embedding of `generateUGCImage`: credential check before anything
else, then one attempt per recursion level; the retry recursion reads
the `message` property of the caught error, increments the attempt
counter and is guarded by `retryCount < 1`; a terminal failure is
surfaced as `handleApiError` applied to the stringified error. The
second component records every request issued to the service, in
order. -/
def generateCore (apiKey : Option String) (svc : Nat → ApiOutcome)
    (person pm product prodm scene : String) (retryCount : Nat) :
    Except String String × List GenRequest :=
  match apiKey with
  | none => (Except.error "API key is not configured in the environment.", [])
  | some _ =>
    let req := buildRequest person pm product prodm scene
    match tryAttempt (svc retryCount) with
    | Except.ok data => (Except.ok data, [req])
    | Except.error e =>
      if h : retryCount < 1 ∧ retryCondition e.message = true then
        ((generateCore apiKey svc person pm product prodm scene (retryCount + 1)).1,
          req :: (generateCore apiKey svc person pm product prodm scene (retryCount + 1)).2)
      else
        (Except.error (handleApiError (errorText e)), [req])
termination_by 1 - retryCount
decreasing_by omega

/-- A user-selected file, reduced to the fields the uploader reads. -/
structure FileM where
  name : String
  type : String
  deriving DecidableEq, Repr

/-- The per-image uploader state (`ImageState` in `src/types`). -/
structure ImageState where
  file : Option FileM
  preview : Option String
  croppedBase64 : Option String
  deriving DecidableEq, Repr

/-- Outcome of the decode / resize / re-encode promise of `resizeImage`:
success carries the encoded payload and the preview data URL; failure is
a rejection of the promise (load or canvas failure). -/
inductive ResizeOutcome where
  | ok (base64 preview : String)
  | err
  deriving DecidableEq, Repr

/-- Embedding of `processFile` from the `ImageUploader` component as a
state transition: the new image state, plus the console error message
logged when processing failed (`none` when nothing was logged). A `none`
file or a file whose declared type does not start with `image` is
ignored; a resize failure is caught, logged and leaves the state as it
was; success replaces the whole state at once. -/
def processFile (file : Option FileM) (outcome : ResizeOutcome)
    (st : ImageState) : ImageState × Option String :=
  match file with
  | none => (st, none)
  | some f =>
    if startsWithStr f.type "image" then
      match outcome with
      | ResizeOutcome.ok b p =>
        ({ file := some f, preview := some p, croppedBase64 := some b }, none)
      | ResizeOutcome.err => (st, some "Image processing error:")
    else (st, none)

/-- Dimension computation of `resizeImage`: scale the longer side down to
`maxDimension` when it exceeds it, multiplying the other side by the same
factor; otherwise keep both sides. Dimensions are exact rationals. -/
def resizeDims (width height maxDimension : ℚ) : ℚ × ℚ :=
  if width > height then
    if width > maxDimension then (maxDimension, height * (maxDimension / width))
    else (width, height)
  else
    if height > maxDimension then (width * (maxDimension / height), maxDimension)
    else (width, height)

/-- JavaScript truthiness of a nullable string: `null` and the empty
string are falsy. -/
def strFalsy (s : Option String) : Bool :=
  match s with
  | none => true
  | some t => t = ""

/-- What one invocation of the caller guard does: reject with an error
message without calling the service client, or invoke `generateUGCImage`
with the given arguments. -/
inductive GenCall where
  | rejected (msg : String)
  | invoked (person mime1 product mime2 scene : String)
  deriving DecidableEq, Repr

/-- Embedding of the guard at the top of `handleGenerate` in
`src/App.tsx`: missing cropped image data rejects with the upload
message; a missing scene selection rejects with the scene message;
otherwise `generateUGCImage` is called with both payloads, explicit
`image/jpeg` media types, and the selected scene. -/
def handleGenerate (personCropped productCropped selectedSubScene : Option String) :
    GenCall :=
  if strFalsy personCropped || strFalsy productCropped then
    GenCall.rejected "Please upload both a person and a product image."
  else if strFalsy selectedSubScene then
    GenCall.rejected "Please select a specific scene atmosphere."
  else
    GenCall.invoked (personCropped.getD "") "image/jpeg"
      (productCropped.getD "") "image/jpeg" (selectedSubScene.getD "")

/-! ### Unfolding lemmas for `generateCore` -/

lemma generateCore_noKey (svc : Nat → ApiOutcome) (p pm pr prm s : String) (rc : Nat) :
    generateCore none svc p pm pr prm s rc
      = (Except.error "API key is not configured in the environment.", []) := by
  rw [generateCore.eq_def]

lemma generateCore_ok (k : String) (svc : Nat → ApiOutcome) (p pm pr prm s : String)
    (rc : Nat) (d : String) (hm : tryAttempt (svc rc) = Except.ok d) :
    generateCore (some k) svc p pm pr prm s rc
      = (Except.ok d, [buildRequest p pm pr prm s]) := by
  rw [generateCore.eq_def]
  simp only [hm]

lemma generateCore_stop (k : String) (svc : Nat → ApiOutcome) (p pm pr prm s : String)
    (rc : Nat) (e : JsError) (hm : tryAttempt (svc rc) = Except.error e)
    (hno : ¬ (rc < 1 ∧ retryCondition e.message = true)) :
    generateCore (some k) svc p pm pr prm s rc
      = (Except.error (handleApiError (errorText e)), [buildRequest p pm pr prm s]) := by
  rw [generateCore.eq_def]
  simp only [hm]
  rw [dif_neg hno]

lemma generateCore_retry (k : String) (svc : Nat → ApiOutcome) (p pm pr prm s : String)
    (rc : Nat) (e : JsError) (hm : tryAttempt (svc rc) = Except.error e)
    (hyes : rc < 1 ∧ retryCondition e.message = true) :
    generateCore (some k) svc p pm pr prm s rc
      = ((generateCore (some k) svc p pm pr prm s (rc + 1)).1,
         buildRequest p pm pr prm s :: (generateCore (some k) svc p pm pr prm s (rc + 1)).2) := by
  rw [generateCore.eq_def]
  simp only [hm]
  rw [dif_pos hyes]

lemma generateCore_len_one (k : String) (svc : Nat → ApiOutcome) (p pm pr prm s : String)
    (rc : Nat) (hrc : 1 ≤ rc) :
    ((generateCore (some k) svc p pm pr prm s rc).2).length = 1 := by
  cases hm : tryAttempt (svc rc) with
  | ok d => rw [generateCore_ok k svc p pm pr prm s rc d hm]; rfl
  | error e =>
    rw [generateCore_stop k svc p pm pr prm s rc e hm (by intro hh; omega)]; rfl

lemma generateCore_len_le (k : String) (svc : Nat → ApiOutcome) (p pm pr prm s : String) :
    ((generateCore (some k) svc p pm pr prm s 0).2).length ≤ 2 := by
  cases hm : tryAttempt (svc 0) with
  | ok d =>
    rw [generateCore_ok k svc p pm pr prm s 0 d hm]
    simp
  | error e =>
    by_cases hr : retryCondition e.message = true
    · rw [generateCore_retry k svc p pm pr prm s 0 e hm ⟨by omega, hr⟩]
      simp [generateCore_len_one k svc p pm pr prm s 1 (by omega)]
    · rw [generateCore_stop k svc p pm pr prm s 0 e hm (by intro hh; exact hr hh.2)]
      simp

/-! ### Claim theorems -/

/-- C1: at most one retry ever happens in `generateUGCImage`: when the
attempt with counter `0` fails with a message passing the transient
check, the request is reissued exactly once with counter `1`, a failure
of that second attempt is surfaced as the terminal classified failure,
and for every possible service behaviour at most two requests are ever
issued. -/
theorem c1_retry_at_most_once (k : String) (svc : Nat → ApiOutcome)
    (p pm pr prm s : String) (e1 e2 : JsError)
    (h0 : tryAttempt (svc 0) = Except.error e1)
    (hr : retryCondition e1.message = true)
    (h1 : tryAttempt (svc 1) = Except.error e2) :
    generateCore (some k) svc p pm pr prm s 0
      = (Except.error (handleApiError (errorText e2)),
         [buildRequest p pm pr prm s, buildRequest p pm pr prm s])
    ∧ ∀ svc2 : Nat → ApiOutcome,
        ((generateCore (some k) svc2 p pm pr prm s 0).2).length ≤ 2 := by
  constructor
  · rw [generateCore_retry k svc p pm pr prm s 0 e1 h0 ⟨by omega, hr⟩,
        generateCore_stop k svc p pm pr prm s 1 e2 h1 (by intro hh; omega)]
  · intro svc2
    exact generateCore_len_le k svc2 p pm pr prm s

/-- Witness for C1 at a concrete always-failing-with-500 service. -/
theorem c1_retry_at_most_once_witness :
    generateCore (some "key")
        (fun _ => ApiOutcome.err
          ⟨"got status: 500 Internal Server Error",
           "\x7b\"code\":500,\"message\":\"Internal Server Error\"\x7d"⟩)
        "p" "image/png" "q" "image/png" "cafe" 0
      = (Except.error (handleApiError
          (errorText ⟨"got status: 500 Internal Server Error",
            "\x7b\"code\":500,\"message\":\"Internal Server Error\"\x7d"⟩)),
         [buildRequest "p" "image/png" "q" "image/png" "cafe",
          buildRequest "p" "image/png" "q" "image/png" "cafe"]) :=
  (c1_retry_at_most_once "key"
    (fun _ => ApiOutcome.err
      ⟨"got status: 500 Internal Server Error",
       "\x7b\"code\":500,\"message\":\"Internal Server Error\"\x7d"⟩)
    "p" "image/png" "q" "image/png" "cafe"
    ⟨"got status: 500 Internal Server Error",
     "\x7b\"code\":500,\"message\":\"Internal Server Error\"\x7d"⟩
    ⟨"got status: 500 Internal Server Error",
     "\x7b\"code\":500,\"message\":\"Internal Server Error\"\x7d"⟩
    rfl (by decide) rfl).1

/-- C2 counterexample: a failure whose message carries both quota-exhaustion
signals (`quota` and `RESOURCE_EXHAUSTED`) — a transient rate-limit
condition per the claim — does not pass the retry guard of the code: exactly
one request is issued, zero retries, and the quota classification is
surfaced immediately. -/
theorem c2_counterexample :
    containsStr "quota exceeded: RESOURCE_EXHAUSTED" "quota" = true
    ∧ containsStr "quota exceeded: RESOURCE_EXHAUSTED" "RESOURCE_EXHAUSTED" = true
    ∧ retryCondition "quota exceeded: RESOURCE_EXHAUSTED" = false
    ∧ generateCore (some "key")
        (fun _ => ApiOutcome.err
          ⟨"quota exceeded: RESOURCE_EXHAUSTED",
           "\x7b\"error\":\x7b\"code\":429,\"message\":\"quota exceeded: RESOURCE_EXHAUSTED\",\"status\":\"RESOURCE_EXHAUSTED\"\x7d\x7d"⟩)
        "p" "image/png" "q" "image/png" "cafe" 0
      = (Except.error quotaMessage,
         [buildRequest "p" "image/png" "q" "image/png" "cafe"]) := by
  refine ⟨by decide, by decide, by decide, ?_⟩
  rw [generateCore_stop "key"
        (fun _ => ApiOutcome.err
          ⟨"quota exceeded: RESOURCE_EXHAUSTED",
           "\x7b\"error\":\x7b\"code\":429,\"message\":\"quota exceeded: RESOURCE_EXHAUSTED\",\"status\":\"RESOURCE_EXHAUSTED\"\x7d\x7d"⟩)
        "p" "image/png" "q" "image/png" "cafe" 0
        ⟨"quota exceeded: RESOURCE_EXHAUSTED",
         "\x7b\"error\":\x7b\"code\":429,\"message\":\"quota exceeded: RESOURCE_EXHAUSTED\",\"status\":\"RESOURCE_EXHAUSTED\"\x7d\x7d"⟩
        rfl (by intro hh; exact absurd hh.2 (by decide)),
      show handleApiError
          (errorText ⟨"quota exceeded: RESOURCE_EXHAUSTED",
            "\x7b\"error\":\x7b\"code\":429,\"message\":\"quota exceeded: RESOURCE_EXHAUSTED\",\"status\":\"RESOURCE_EXHAUSTED\"\x7d\x7d"⟩)
        = quotaMessage from by decide]

/-- C2 amended: a retry is triggered exactly when the attempt counter is
`0` and the caught message contains the literal substring `500` or `429`;
every other failing message — quota/RESOURCE_EXHAUSTED-only signals and
auth signals included — is surfaced immediately after a single attempt
with its classified message. -/
theorem c2_retry_guard (k : String) (svc : Nat → ApiOutcome)
    (p pm pr prm s : String) (e : JsError)
    (h0 : tryAttempt (svc 0) = Except.error e) :
    ((generateCore (some k) svc p pm pr prm s 0).2).length
        = (if containsStr e.message "500" || containsStr e.message "429" then 2 else 1)
    ∧ ((containsStr e.message "500" || containsStr e.message "429") = false →
        generateCore (some k) svc p pm pr prm s 0
          = (Except.error (handleApiError (errorText e)),
             [buildRequest p pm pr prm s])) := by
  constructor
  · by_cases hr : retryCondition e.message = true
    · rw [generateCore_retry k svc p pm pr prm s 0 e h0 ⟨by omega, hr⟩]
      rw [if_pos (by simpa [retryCondition] using hr)]
      simp [generateCore_len_one k svc p pm pr prm s 1 (by omega)]
    · rw [generateCore_stop k svc p pm pr prm s 0 e h0 (by intro hh; exact hr hh.2)]
      rw [if_neg (by simpa [retryCondition] using hr)]
      rfl
  · intro hfalse
    exact generateCore_stop k svc p pm pr prm s 0 e h0
      (by intro hh; rw [retryCondition] at hh; simp [hfalse] at hh)

/-- Witness for the amended C2 at a concrete auth-failure error:
surfaced immediately, one request, auth classification. -/
theorem c2_retry_guard_witness :
    ((generateCore (some "key")
        (fun _ => ApiOutcome.err
          ⟨"403 forbidden", "\x7b\"code\":403,\"message\":\"403 forbidden\"\x7d"⟩)
        "p" "a" "q" "b" "s" 0).2).length = 1
    ∧ generateCore (some "key")
        (fun _ => ApiOutcome.err
          ⟨"403 forbidden", "\x7b\"code\":403,\"message\":\"403 forbidden\"\x7d"⟩)
        "p" "a" "q" "b" "s" 0
      = (Except.error authMessage, [buildRequest "p" "a" "q" "b" "s"]) := by
  have h := c2_retry_guard "key"
    (fun _ => ApiOutcome.err
      ⟨"403 forbidden", "\x7b\"code\":403,\"message\":\"403 forbidden\"\x7d"⟩)
    "p" "a" "q" "b" "s"
    ⟨"403 forbidden", "\x7b\"code\":403,\"message\":\"403 forbidden\"\x7d"⟩ rfl
  refine ⟨?_, ?_⟩
  · rw [h.1]; decide
  · rw [h.2 (by decide),
        show handleApiError
            (errorText ⟨"403 forbidden", "\x7b\"code\":403,\"message\":\"403 forbidden\"\x7d"⟩)
          = authMessage from by decide]

/-- C6: with the credential absent from the runtime configuration,
`generateUGCImage` fails before issuing any external request (the issued
request list is empty), surfacing the deployment-misconfiguration
message. -/
theorem c6_missing_credential (svc : Nat → ApiOutcome) (p pm pr prm s : String)
    (rc : Nat) :
    generateCore none svc p pm pr prm s rc
      = (Except.error "API key is not configured in the environment.", []) :=
  generateCore_noKey svc p pm pr prm s rc

lemma findSome?_first_inline (l1 l2 : List Part) (pt : Part) (d : InlineData)
    (hp : pt.inlineData = some d) (hl1 : ∀ q ∈ l1, q.inlineData = none) :
    (l1 ++ pt :: l2).findSome? (fun q => q.inlineData) = some d := by
  induction l1 with
  | nil => simp [List.findSome?, hp]
  | cons c t ih =>
    have hc : c.inlineData = none := hl1 c (by simp)
    simp only [List.cons_append, List.findSome?, hc]
    exact ih (fun q hq => hl1 q (by simp [hq]))

/-- C3: when the response parts contain an inline-image part, the bytes
of the first such part are returned, immediately and without aggregating later
image parts, regardless of surrounding text parts; the whole call
succeeds with those bytes after the single request. -/
theorem c3_first_image_wins (k : String) (svc : Nat → ApiOutcome)
    (p pm pr prm s : String) (l1 l2 : List Part) (pt : Part) (d : InlineData)
    (hp : pt.inlineData = some d) (hl1 : ∀ q ∈ l1, q.inlineData = none)
    (hsvc : svc 0 = ApiOutcome.ok ⟨some (l1 ++ pt :: l2)⟩) :
    extractImage (some (l1 ++ pt :: l2)) = Except.ok d.data
    ∧ generateCore (some k) svc p pm pr prm s 0
        = (Except.ok d.data, [buildRequest p pm pr prm s]) := by
  have hext : extractImage (some (l1 ++ pt :: l2)) = Except.ok d.data := by
    simp [extractImage, findSome?_first_inline l1 l2 pt d hp hl1]
  refine ⟨hext, ?_⟩
  apply generateCore_ok
  rw [hsvc]
  simp [tryAttempt, hext]

/-- Witness for C3: a text part precedes the image part and a second
image part follows it; the bytes of the first image are returned. -/
theorem c3_first_image_wins_witness :
    extractImage (some [Part.mk (some "caption") none,
                        Part.mk none (some ⟨"IMGDATA", "image/png"⟩),
                        Part.mk none (some ⟨"OTHER", "image/png"⟩)])
      = Except.ok "IMGDATA" :=
  (c3_first_image_wins "key"
    (fun _ => ApiOutcome.ok ⟨some [Part.mk (some "caption") none,
                                   Part.mk none (some ⟨"IMGDATA", "image/png"⟩),
                                   Part.mk none (some ⟨"OTHER", "image/png"⟩)]⟩)
    "p" "a" "q" "b" "s"
    [Part.mk (some "caption") none]
    [Part.mk none (some ⟨"OTHER", "image/png"⟩)]
    (Part.mk none (some ⟨"IMGDATA", "image/png"⟩))
    ⟨"IMGDATA", "image/png"⟩ rfl (by decide) rfl).1

lemma findSome?_inline_none (parts : List Part)
    (h : ∀ q ∈ parts, q.inlineData = none) :
    parts.findSome? (fun q => q.inlineData) = none := by
  induction parts with
  | nil => rfl
  | cons c t ih =>
    simp only [List.findSome?, h c (by simp)]
    exact ih (fun q hq => h q (by simp [hq]))

/-- C4: the internal no-image classification is three-way exactly as
claimed — absent parts collection raises the empty-response error, a
text-only part list raises `SAFETY_BLOCK` and is never retried, and an
empty-content part list raises the no-image error — and the sentinel
`SAFETY_BLOCK` would classify to the safety sentence if it reached the
substring matcher. But the caught `Error` object stringifies to the
empty-object literal, so the full call at the text-only response
surfaces the generic sentence, not the safety sentence the claim and the
stated intent of the source (the `SAFETY` branch of `handleApiError`)
prescribe. -/
theorem c4_safety_block_stringify_bug :
    extractImage none = Except.error "No output content generated."
    ∧ extractImage (some [Part.mk (some "I cannot generate that image.") none])
        = Except.error "SAFETY_BLOCK"
    ∧ extractImage (some [Part.mk none none])
        = Except.error "No image found in response."
    ∧ retryCondition (mkJsError "SAFETY_BLOCK").message = false
    ∧ handleApiError "SAFETY_BLOCK" = safetyMessage
    ∧ errorText (mkJsError "SAFETY_BLOCK") = "\x7b\x7d"
    ∧ handleApiError (errorText (mkJsError "SAFETY_BLOCK")) = genericMessage
    ∧ generateCore (some "key")
        (fun _ => ApiOutcome.ok ⟨some [Part.mk (some "I cannot generate that image.") none]⟩)
        "p" "a" "q" "b" "s" 0
      = (Except.error genericMessage, [buildRequest "p" "a" "q" "b" "s"]) := by
  refine ⟨rfl, rfl, rfl, by decide, by decide, rfl, by decide, ?_⟩
  rw [generateCore_stop "key"
        (fun _ => ApiOutcome.ok ⟨some [Part.mk (some "I cannot generate that image.") none]⟩)
        "p" "a" "q" "b" "s" 0 (mkJsError "SAFETY_BLOCK")
        rfl (by intro hh; exact absurd hh.2 (by decide)),
      show handleApiError (errorText (mkJsError "SAFETY_BLOCK")) = genericMessage
        from by decide]

lemma strFalsy_eq_false (o : Option String) (h : strFalsy o = false) :
    o = some (o.getD "") ∧ o.getD "" ≠ "" := by
  cases o with
  | none => simp [strFalsy] at h
  | some t =>
    simp only [strFalsy] at h
    exact ⟨rfl, of_decide_eq_false h⟩

/-- C5 counterexample: `generateUGCImage` itself performs no input
validation: called with both image payloads absent (empty) and an empty
scene, it still builds and issues the request, and the resulting failure
is the generic downstream classification, not a missing-input
rejection. -/
theorem c5_counterexample :
    generateCore (some "key") (fun _ => ApiOutcome.err (mkJsError "boom"))
        "" "image/jpeg" "" "image/jpeg" "" 0
      = (Except.error genericMessage,
         [buildRequest "" "image/jpeg" "" "image/jpeg" ""]) := by
  rw [generateCore_stop "key" (fun _ => ApiOutcome.err (mkJsError "boom"))
        "" "image/jpeg" "" "image/jpeg" "" 0 (mkJsError "boom") rfl
        (by intro hh; exact absurd hh.2 (by decide)),
      show handleApiError (errorText (mkJsError "boom")) = genericMessage from by decide]

/-- C5 amended: the missing-input rejection lives in the caller
`handleGenerate`: it rejects with the upload message when either cropped
image payload is absent, rejects with the scene message when no scene is
selected, and only ever invokes `generateUGCImage` with both payloads
present and a non-empty scene. -/
theorem c5_caller_guard (pc prc sub : Option String) :
    ((strFalsy pc || strFalsy prc) = true →
      handleGenerate pc prc sub
        = GenCall.rejected "Please upload both a person and a product image.")
    ∧ ((strFalsy pc || strFalsy prc) = false → strFalsy sub = true →
      handleGenerate pc prc sub
        = GenCall.rejected "Please select a specific scene atmosphere.")
    ∧ (∀ p m1 q m2 s, handleGenerate pc prc sub = GenCall.invoked p m1 q m2 s →
        pc = some p ∧ p ≠ "" ∧ prc = some q ∧ q ≠ ""
        ∧ s ≠ "" ∧ m1 = "image/jpeg" ∧ m2 = "image/jpeg") := by
  refine ⟨fun h1 => by simp [handleGenerate, h1], fun h1 h2 => by simp [handleGenerate, h1, h2], ?_⟩
  intro p m1 q m2 s h
  unfold handleGenerate at h
  by_cases h1 : (strFalsy pc || strFalsy prc) = true
  · rw [if_pos h1] at h; exact absurd h (by simp)
  · rw [if_neg h1] at h
    by_cases h2 : strFalsy sub = true
    · rw [if_pos h2] at h; exact absurd h (by simp)
    · rw [if_neg h2] at h
      injection h with e1 e2 e3 e4 e5
      have hpc := strFalsy_eq_false pc (by revert h1; cases strFalsy pc <;> simp)
      have hprc := strFalsy_eq_false prc (by revert h1; cases strFalsy prc <;> simp)
      have hsub := strFalsy_eq_false sub (by revert h2; cases strFalsy sub <;> simp)
      exact ⟨e1 ▸ hpc.1, e1 ▸ hpc.2, e3 ▸ hprc.1, e3 ▸ hprc.2,
             e5 ▸ hsub.2, e2.symm, e4.symm⟩

/-- Witness for the amended C5 at concrete inputs: a missing person
image is rejected with the upload message; a missing scene is rejected
with the scene message; a fully supplied call is invoked with non-empty
payloads and scene. -/
theorem c5_caller_guard_witness :
    handleGenerate none (some "QDATA") (some "Coffee shop")
      = GenCall.rejected "Please upload both a person and a product image."
    ∧ handleGenerate (some "PDATA") (some "QDATA") none
      = GenCall.rejected "Please select a specific scene atmosphere."
    ∧ ((some "PDATA" : Option String) = some "PDATA" ∧ "PDATA" ≠ ""
        ∧ (some "QDATA" : Option String) = some "QDATA" ∧ "QDATA" ≠ ""
        ∧ "Coffee shop" ≠ "" ∧ "image/jpeg" = "image/jpeg" ∧ "image/jpeg" = "image/jpeg") :=
  ⟨(c5_caller_guard none (some "QDATA") (some "Coffee shop")).1 (by decide),
   (c5_caller_guard (some "PDATA") (some "QDATA") none).2.1 (by decide) (by decide),
   (c5_caller_guard (some "PDATA") (some "QDATA") (some "Coffee shop")).2.2
     "PDATA" "image/jpeg" "QDATA" "image/jpeg" "Coffee shop" (by decide)⟩

/-- C7: the resize step leaves an image with both sides within the
1024px bound unchanged, and otherwise scales the longer side down to
exactly 1024 while preserving the aspect ratio exactly (in the rational
model; the source rounds only when drawing). -/
theorem c7_resize_bound (w h : ℚ) (hw : 0 < w) (hh : 0 < h) :
    (w ≤ 1024 → h ≤ 1024 → resizeDims w h 1024 = (w, h))
    ∧ (1024 < max w h →
        max (resizeDims w h 1024).1 (resizeDims w h 1024).2 = 1024
        ∧ (resizeDims w h 1024).2 * w = (resizeDims w h 1024).1 * h) := by
  have hw0 : w ≠ 0 := ne_of_gt hw
  have hh0 : h ≠ 0 := ne_of_gt hh
  constructor
  · intro hwle hhle
    unfold resizeDims
    split_ifs <;> first | rfl | (exfalso; linarith)
  · intro hmax
    unfold resizeDims
    split_ifs with h1 h2 h3
    · have hle : h * (1024 / w) ≤ 1024 := by
        rw [mul_div_assoc', div_le_iff₀ hw]
        nlinarith
      refine ⟨max_eq_left hle, ?_⟩
      field_simp
      ring
    · exfalso
      rw [max_eq_left (le_of_lt h1)] at hmax
      linarith
    · have hle : w * (1024 / h) ≤ 1024 := by
        rw [mul_div_assoc', div_le_iff₀ hh]
        nlinarith [not_lt.mp h1]
      refine ⟨max_eq_right hle, ?_⟩
      field_simp
      ring
    · exfalso
      have hwle : w ≤ 1024 := le_trans (not_lt.mp h1) (not_lt.mp h3)
      have hmle : max w h ≤ 1024 := max_le hwle (not_lt.mp h3)
      linarith

/-- Witness for C7: a 2048×1024 input is scaled so its longer side is
exactly 1024 with the ratio preserved; an 800×600 input is left
unchanged. -/
theorem c7_resize_bound_witness :
    resizeDims 800 600 1024 = (800, 600)
    ∧ (max (resizeDims 2048 1024 1024).1 (resizeDims 2048 1024 1024).2 = 1024
        ∧ (resizeDims 2048 1024 1024).2 * 2048 = (resizeDims 2048 1024 1024).1 * 1024) :=
  ⟨(c7_resize_bound 800 600 (by norm_num) (by norm_num)).1 (by norm_num) (by norm_num),
   (c7_resize_bound 2048 1024 (by norm_num) (by norm_num)).2 (by norm_num)⟩

/-- C8: the image preparer never partially updates state: a non-image
file is silently ignored (state unchanged, nothing logged), a failed
decode/re-encode leaves the state untouched and logs the processing
error, and a success replaces the whole state in one step. -/
theorem c8_no_partial_update :
    (∀ (f : FileM) (outcome : ResizeOutcome) (st : ImageState),
        startsWithStr f.type "image" = false →
        processFile (some f) outcome st = (st, none))
    ∧ (∀ (f : FileM) (st : ImageState), startsWithStr f.type "image" = true →
        processFile (some f) ResizeOutcome.err st
          = (st, some "Image processing error:"))
    ∧ (∀ (f : FileM) (b p : String) (st : ImageState),
        startsWithStr f.type "image" = true →
        processFile (some f) (ResizeOutcome.ok b p) st
          = ({ file := some f, preview := some p, croppedBase64 := some b }, none)) :=
  ⟨fun f outcome st hf => by simp [processFile, hf],
   fun f st hf => by simp [processFile, hf],
   fun f b p st hf => by simp [processFile, hf]⟩

/-- Witness for C8: a plain-text file is ignored; a failing resize of a
PNG leaves the pre-existing state intact and logs the error. -/
theorem c8_no_partial_update_witness :
    processFile (some ⟨"notes.txt", "text/plain"⟩) (ResizeOutcome.ok "b" "p")
        ⟨none, none, none⟩ = (⟨none, none, none⟩, none)
    ∧ processFile (some ⟨"photo.png", "image/png"⟩) ResizeOutcome.err
        ⟨some ⟨"old.png", "image/png"⟩, some "oldPreview", some "oldB64"⟩
      = (⟨some ⟨"old.png", "image/png"⟩, some "oldPreview", some "oldB64"⟩,
         some "Image processing error:") :=
  ⟨c8_no_partial_update.1 ⟨"notes.txt", "text/plain"⟩ (ResizeOutcome.ok "b" "p")
      ⟨none, none, none⟩ (by decide),
   c8_no_partial_update.2.1 ⟨"photo.png", "image/png"⟩
      ⟨some ⟨"old.png", "image/png"⟩, some "oldPreview", some "oldB64"⟩ (by decide)⟩

lemma generateCore_sent_ge_one (k : String) (svc : Nat → ApiOutcome)
    (p pm pr prm s : String) (rc : Nat) (hrc : 1 ≤ rc) :
    (generateCore (some k) svc p pm pr prm s rc).2 = [buildRequest p pm pr prm s] := by
  cases hm : tryAttempt (svc rc) with
  | ok d => rw [generateCore_ok k svc p pm pr prm s rc d hm]
  | error e =>
    rw [generateCore_stop k svc p pm pr prm s rc e hm (by intro hh; omega)]

lemma generateCore_sent_zero (k : String) (svc : Nat → ApiOutcome)
    (p pm pr prm s : String) :
    (generateCore (some k) svc p pm pr prm s 0).2 ≠ []
    ∧ ∀ r ∈ (generateCore (some k) svc p pm pr prm s 0).2,
        r = buildRequest p pm pr prm s := by
  cases hm : tryAttempt (svc 0) with
  | ok d =>
    rw [generateCore_ok k svc p pm pr prm s 0 d hm]
    simp
  | error e =>
    by_cases hr : retryCondition e.message = true
    · rw [generateCore_retry k svc p pm pr prm s 0 e hm ⟨by omega, hr⟩]
      rw [generateCore_sent_ge_one k svc p pm pr prm s 1 (by omega)]
      simp
    · rw [generateCore_stop k svc p pm pr prm s 0 e hm (by intro hh; exact hr hh.2)]
      simp

/-- C9: an empty media-type tag is defaulted to `image/jpeg`: the request
is still built exactly as with an explicit `image/jpeg` tag, and with the
credential present it is actually sent — every request issued by the call
carries the defaulted tag, and at least one is issued. -/
theorem c9_empty_mime_default (k p pr prodm s : String) (svc : Nat → ApiOutcome) :
    mimeOrDefault "" = "image/jpeg"
    ∧ buildRequest p "" pr prodm s = buildRequest p "image/jpeg" pr prodm s
    ∧ (generateCore (some k) svc p "" pr prodm s 0).2 ≠ []
    ∧ ∀ r ∈ (generateCore (some k) svc p "" pr prodm s 0).2,
        r = buildRequest p "image/jpeg" pr prodm s := by
  have hb : buildRequest p "" pr prodm s = buildRequest p "image/jpeg" pr prodm s := by
    simp [buildRequest, mimeOrDefault]
  refine ⟨rfl, hb, (generateCore_sent_zero k svc p "" pr prodm s).1, ?_⟩
  intro r hr
  rw [← hb]
  exact (generateCore_sent_zero k svc p "" pr prodm s).2 r hr

/-- C10: error classification is first-match-wins in the fixed source
order quota, auth, safety, missing-config, generic: a string matching a
quota signal is classified as the quota failure no matter which other
signals it also contains, and each later kind applies only when every
earlier signal family is absent. -/
theorem c10_first_match_wins (s : String) :
    ((containsStr s "RESOURCE_EXHAUSTED" || containsStr s "429"
        || containsStr s "quota") = true →
      handleApiError s = quotaMessage)
    ∧ ((containsStr s "RESOURCE_EXHAUSTED" || containsStr s "429"
        || containsStr s "quota") = false →
       (containsStr s "API_KEY_INVALID" || containsStr s "401"
        || containsStr s "403") = true →
      handleApiError s = authMessage)
    ∧ ((containsStr s "RESOURCE_EXHAUSTED" || containsStr s "429"
        || containsStr s "quota") = false →
       (containsStr s "API_KEY_INVALID" || containsStr s "401"
        || containsStr s "403") = false →
       (containsStr s "SAFETY" || containsStr s "blocked") = true →
      handleApiError s = safetyMessage)
    ∧ ((containsStr s "RESOURCE_EXHAUSTED" || containsStr s "429"
        || containsStr s "quota") = false →
       (containsStr s "API_KEY_INVALID" || containsStr s "401"
        || containsStr s "403") = false →
       (containsStr s "SAFETY" || containsStr s "blocked") = false →
       containsStr s "API_KEY is not available" = true →
      handleApiError s = configMessage)
    ∧ ((containsStr s "RESOURCE_EXHAUSTED" || containsStr s "429"
        || containsStr s "quota") = false →
       (containsStr s "API_KEY_INVALID" || containsStr s "401"
        || containsStr s "403") = false →
       (containsStr s "SAFETY" || containsStr s "blocked") = false →
       containsStr s "API_KEY is not available" = false →
      handleApiError s = genericMessage) := by
  refine ⟨fun h1 => ?_, fun h1 h2 => ?_, fun h1 h2 h3 => ?_,
          fun h1 h2 h3 h4 => ?_, fun h1 h2 h3 h4 => ?_⟩
  · unfold handleApiError
    rw [if_pos h1]
  · unfold handleApiError
    rw [if_neg (by simp [h1]), if_pos h2]
  · unfold handleApiError
    rw [if_neg (by simp [h1]), if_neg (by simp [h2]), if_pos h3]
  · unfold handleApiError
    rw [if_neg (by simp [h1]), if_neg (by simp [h2]), if_neg (by simp [h3]),
        if_pos h4]
  · unfold handleApiError
    rw [if_neg (by simp [h1]), if_neg (by simp [h2]), if_neg (by simp [h3]),
        if_neg (by simp [h4])]

/-- Witness for C10 at the example given in the claim: a message carrying both a
quota signal (`429`) and an auth signal (`403`) is classified as the
quota failure, the earliest match. -/
theorem c10_first_match_wins_witness :
    containsStr "error 429 and 403 together" "429" = true
    ∧ containsStr "error 429 and 403 together" "403" = true
    ∧ handleApiError "error 429 and 403 together" = quotaMessage :=
  ⟨by decide, by decide,
   (c10_first_match_wins "error 429 and 403 together").1 (by decide)⟩

end UGCStudio
